import Mathlib

/-!
Verification development for the Baseline / Chronic Pain Diary web application.

The TypeScript sources are shallowly embedded in Lean:

* 5-element tuple types such as `[string, string, string, string, string]`
  become the structure `Tuple5`;
* JavaScript numbers used as intensity values become `Int` (the intensity
  helper functions are compared against integers only);
* nullable values (`T | null | undefined`) become `Option`;
* effectful React/Supabase code becomes explicit state passing: the observable
  effects (current user, number of provider sign-out calls, toast kind)
  are recorded in small state structures, and each async boundary outcome
  (resolved value, null, timeout, rejection) is an explicit constructor of an
  outcome type.

Every definition mirrors its source function; the source file and symbol are
named next to each definition.
-/

namespace Baseline

/-- A 5-element tuple, modelling the TypeScript type
`[string, string, string, string, string]` used for intensity label and
color palettes in `src/types/tracker-config.ts`. -/
structure Tuple5 (α : Type) where
  e0 : α
  e1 : α
  e2 : α
  e3 : α
  e4 : α

deriving instance DecidableEq for Tuple5

/-- Index into a `Tuple5` with a `Fin 5`. -/
def Tuple5.get (t : Tuple5 α) : Fin 5 → α
  | ⟨0, _⟩ => t.e0
  | ⟨1, _⟩ => t.e1
  | ⟨2, _⟩ => t.e2
  | ⟨3, _⟩ => t.e3
  | ⟨_ + 4, _⟩ => t.e4

/-- The bucket index of the 1..10 intensity domain, as the specification
writes it: 0 if v ≤ 2, 1 if v ≤ 4, 2 if v ≤ 6, 3 if v ≤ 8, else 4. -/
def bucket (v : Int) : Fin 5 :=
  if v ≤ 2 then 0
  else if v ≤ 4 then 1
  else if v ≤ 6 then 2
  else if v ≤ 8 then 3
  else 4

/-- Source: `createIntensityLabelFn` in `src/types/tracker-config.ts`. -/
def createIntensityLabelFn (labels : Tuple5 String) : Int → String :=
  fun value =>
    if value ≤ 2 then labels.e0
    else if value ≤ 4 then labels.e1
    else if value ≤ 6 then labels.e2
    else if value ≤ 8 then labels.e3
    else labels.e4

/-- Source: `createIntensityColorFn` in `src/types/tracker-config.ts`. -/
def createIntensityColorFn (colors : Tuple5 String) : Int → String :=
  fun value =>
    if value ≤ 2 then colors.e0
    else if value ≤ 4 then colors.e1
    else if value ≤ 6 then colors.e2
    else if value ≤ 8 then colors.e3
    else colors.e4

/-- Claim C3: for every integer v in 1..10 and every 5-element label array L
and 5-element color array C, the functions built by `createIntensityLabelFn L`
and `createIntensityColorFn C` both return the element at index `bucket v`,
so the label index and the color index agree for the same v. -/
theorem intensity_fns_agree_with_bucket
    (v : Int) (h1 : 1 ≤ v) (h2 : v ≤ 10) (L C : Tuple5 String) :
    createIntensityLabelFn L v = L.get (bucket v) ∧
    createIntensityColorFn C v = C.get (bucket v) := by
  constructor <;>
    · simp only [createIntensityLabelFn, createIntensityColorFn, bucket]
      split_ifs <;> rfl

/-- Witness for claim C3's theorem at the concrete intensity 7 with concrete
label and color arrays. -/
theorem intensity_fns_agree_with_bucket_witness :
    (1 : Int) ≤ 7 ∧ (7 : Int) ≤ 10 ∧
    createIntensityLabelFn ⟨"A", "B", "C", "D", "E"⟩ 7 = "D" ∧
    createIntensityColorFn ⟨"c0", "c1", "c2", "c3", "c4"⟩ 7 = "c3" := by
  refine ⟨by decide, by decide, ?_, ?_⟩
  · exact (intensity_fns_agree_with_bucket 7 (by decide) (by decide)
      ⟨"A", "B", "C", "D", "E"⟩ ⟨"c0", "c1", "c2", "c3", "c4"⟩).1
  · exact (intensity_fns_agree_with_bucket 7 (by decide) (by decide)
      ⟨"A", "B", "C", "D", "E"⟩ ⟨"c0", "c1", "c2", "c3", "c4"⟩).2

/-- Claim C10: the built intensity functions are total over all integers:
any v ≤ 2 (including 0 and negative values) yields element 0, and any
v > 8 (including values above 10) yields element 4, so out-of-range
intensities never produce an error or an undefined result. -/
theorem intensity_fns_total_out_of_range (v : Int) (L C : Tuple5 String) :
    (v ≤ 2 → createIntensityLabelFn L v = L.e0 ∧
      createIntensityColorFn C v = C.e0) ∧
    (8 < v → createIntensityLabelFn L v = L.e4 ∧
      createIntensityColorFn C v = C.e4) := by
  unfold createIntensityLabelFn createIntensityColorFn
  constructor
  · intro h
    rw [if_pos h, if_pos h]
    exact ⟨rfl, rfl⟩
  · intro h
    have h2 : ¬ v ≤ 2 := by omega
    have h4 : ¬ v ≤ 4 := by omega
    have h6 : ¬ v ≤ 6 := by omega
    have h8 : ¬ v ≤ 8 := by omega
    rw [if_neg h2, if_neg h4, if_neg h6, if_neg h8,
      if_neg h2, if_neg h4, if_neg h6, if_neg h8]
    exact ⟨rfl, rfl⟩

/-- Witness for claim C10's theorem at the out-of-range intensities -3 and
15 with concrete label and color arrays. -/
theorem intensity_fns_total_out_of_range_witness :
    createIntensityLabelFn ⟨"A", "B", "C", "D", "E"⟩ (-3) = "A" ∧
    createIntensityColorFn ⟨"c0", "c1", "c2", "c3", "c4"⟩ 15 = "c4" := by
  constructor
  · exact ((intensity_fns_total_out_of_range (-3) ⟨"A", "B", "C", "D", "E"⟩
      ⟨"c0", "c1", "c2", "c3", "c4"⟩).1 (by decide)).1
  · exact ((intensity_fns_total_out_of_range 15 ⟨"A", "B", "C", "D", "E"⟩
      ⟨"c0", "c1", "c2", "c3", "c4"⟩).2 (by decide)).2

/-- The polarity tag of a generated intensity scale
(`src/types/generated-config.ts`). -/
inductive IntensityScale where
  | high_bad
  | low_bad
  | neutral
deriving DecidableEq

/-- A location option `{ value, label }` as used by tracker configurations. -/
structure LocationOption where
  value : String
  label : String
deriving DecidableEq

/-- An AI-generated tracker configuration. The field list is taken from the
reads performed by `buildConfigFromGenerated` in `src/types/tracker-config.ts`
together with the `intensityScale` tag and the optional `suggestedHashtags`
list. -/
structure GeneratedTrackerConfig where
  intensityLabel : String
  intensityMinLabel : String
  intensityMaxLabel : String
  locationLabel : String
  locationPlaceholder : String
  triggersLabel : String
  notesLabel : String
  notesPlaceholder : String
  addButtonLabel : String
  formTitle : String
  emptyStateTitle : String
  emptyStateDescription : String
  emptyStateBullets : List String
  entryTitle : String
  deleteConfirmMessage : String
  locations : List LocationOption
  triggers : List String
  intensityScale : IntensityScale
  suggestedHashtags : Option (List String)
deriving DecidableEq

/-- The fully resolved tracker configuration consumed by rendering surfaces
(`TrackerConfig` interface in `src/types/tracker-config.ts`). The optional
`suggestedHashtags` field of the TypeScript interface becomes an `Option`. -/
structure TrackerConfig where
  intensityLabel : String
  intensityMinLabel : String
  intensityMaxLabel : String
  locationLabel : String
  locationPlaceholder : String
  triggersLabel : String
  notesLabel : String
  notesPlaceholder : String
  addButtonLabel : String
  formTitle : String
  emptyStateTitle : String
  emptyStateDescription : String
  emptyStateBullets : List String
  entryTitle : String
  deleteConfirmMessage : String
  locations : List LocationOption
  triggers : List String
  suggestedHashtags : Option (List String)
  getIntensityLabel : Int → String
  getIntensityColor : Int → String

/-- Source: `HIGH_BAD_COLORS` in `src/types/tracker-config.ts`
(green to red, high is bad). -/
def HIGH_BAD_COLORS : Tuple5 String :=
  ⟨"#22c55e", "#84cc16", "#eab308", "#f97316", "#ef4444"⟩

/-- Source: `LOW_BAD_COLORS` in `src/types/tracker-config.ts`
(red to green, low is bad). -/
def LOW_BAD_COLORS : Tuple5 String :=
  ⟨"#ef4444", "#f97316", "#eab308", "#84cc16", "#22c55e"⟩

/-- Source: the `deleteConfirm` message template in
`src/types/tracker-config.ts`. The TypeScript parameter is an optional
string; all call sites pass either a non-empty literal or nothing, so the
`Option` model matches the truthiness test. -/
def deleteConfirm : Option String → String
  | some entryType =>
      "Are you sure you want to delete this " ++ entryType ++
        " entry? This action cannot be undone."
  | none => "Are you sure you want to delete this entry? This action cannot be undone."

/-- Source: `chronicPainConfig` in `src/types/tracker-config.ts`. -/
def chronicPainConfig : TrackerConfig :=
  { intensityLabel := "Pain Intensity"
    intensityMinLabel := "1 - Minimal"
    intensityMaxLabel := "10 - Extreme"
    locationLabel := "Location(s)"
    locationPlaceholder := "Where is the pain?"
    triggersLabel := "Possible Triggers"
    notesLabel := "Notes"
    notesPlaceholder := "Describe your pain, what you were doing, how you\x27re feeling..."
    addButtonLabel := "Log Pain Entry"
    formTitle := "Log Pain Entry"
    emptyStateTitle := "Welcome to Your Pain Diary"
    emptyStateDescription := "Start tracking your pain journey by logging your first entry. Understanding your patterns can help you and your healthcare provider make informed decisions."
    emptyStateBullets := [
      "Track pain intensity, location, and triggers",
      "Identify patterns over time",
      "Share your history with doctors"]
    entryTitle := "Pain Entry Details"
    deleteConfirmMessage := deleteConfirm (some "pain")
    locations := [
      ⟨"head", "Head"⟩, ⟨"neck", "Neck"⟩, ⟨"shoulders", "Shoulders"⟩,
      ⟨"upper-back", "Upper Back"⟩, ⟨"lower-back", "Lower Back"⟩,
      ⟨"chest", "Chest"⟩, ⟨"abdomen", "Abdomen"⟩, ⟨"hips", "Hips"⟩,
      ⟨"arms", "Arms"⟩, ⟨"hands", "Hands"⟩, ⟨"legs", "Legs"⟩,
      ⟨"knees", "Knees"⟩, ⟨"feet", "Feet"⟩]
    triggers := ["Stress", "Weather", "Physical Activity", "Sleep Issues",
      "Diet", "Medication Change", "Prolonged Sitting", "Cold", "Heat"]
    suggestedHashtags := none
    getIntensityLabel :=
      createIntensityLabelFn ⟨"Minimal", "Mild", "Moderate", "Severe", "Extreme"⟩
    getIntensityColor := createIntensityColorFn HIGH_BAD_COLORS }

/-- Source: `moodConfig` in `src/types/tracker-config.ts`. -/
def moodConfig : TrackerConfig :=
  { intensityLabel := "Mood Level"
    intensityMinLabel := "1 - Very Low"
    intensityMaxLabel := "10 - Excellent"
    locationLabel := "Category"
    locationPlaceholder := "What best describes your mood?"
    triggersLabel := "Contributing Factors"
    notesLabel := "Reflections"
    notesPlaceholder := "How are you feeling? What\x27s on your mind?"
    addButtonLabel := "Log Mood"
    formTitle := "Log Mood Entry"
    emptyStateTitle := "Welcome to Your Mood Tracker"
    emptyStateDescription := "Start tracking your emotional wellbeing by logging your first entry. Understanding your mood patterns can help you identify what affects your mental health."
    emptyStateBullets := [
      "Track mood levels and emotional states",
      "Identify triggers and patterns",
      "Build self-awareness over time"]
    entryTitle := "Mood Entry Details"
    deleteConfirmMessage := deleteConfirm (some "mood")
    locations := [
      ⟨"anxiety", "Anxiety"⟩, ⟨"depression", "Depression"⟩,
      ⟨"stress", "Stress"⟩, ⟨"calm", "Calm"⟩, ⟨"happy", "Happy"⟩,
      ⟨"neutral", "Neutral"⟩, ⟨"irritable", "Irritable"⟩,
      ⟨"hopeful", "Hopeful"⟩, ⟨"overwhelmed", "Overwhelmed"⟩]
    triggers := ["Work", "Relationships", "Sleep", "Exercise", "Social Media",
      "Isolation", "Therapy", "Meditation", "Weather", "News"]
    suggestedHashtags := none
    getIntensityLabel :=
      createIntensityLabelFn ⟨"Very Low", "Low", "Okay", "Good", "Excellent"⟩
    getIntensityColor := createIntensityColorFn LOW_BAD_COLORS }

/-- Source: `sleepConfig` in `src/types/tracker-config.ts`. -/
def sleepConfig : TrackerConfig :=
  { intensityLabel := "Sleep Quality"
    intensityMinLabel := "1 - Terrible"
    intensityMaxLabel := "10 - Perfect"
    locationLabel := "Sleep Type"
    locationPlaceholder := "How was your sleep?"
    triggersLabel := "Sleep Factors"
    notesLabel := "Notes"
    notesPlaceholder := "Any dreams, interruptions, or things affecting your sleep?"
    addButtonLabel := "Log Sleep"
    formTitle := "Log Sleep Entry"
    emptyStateTitle := "Welcome to Your Sleep Tracker"
    emptyStateDescription := "Start tracking your sleep quality by logging your first entry. Understanding your sleep patterns can help improve your rest and overall health."
    emptyStateBullets := [
      "Track sleep quality and duration",
      "Identify factors affecting your sleep",
      "Improve your sleep hygiene"]
    entryTitle := "Sleep Entry Details"
    deleteConfirmMessage := deleteConfirm (some "sleep")
    locations := [
      ⟨"insomnia", "Insomnia"⟩, ⟨"restful", "Restful"⟩,
      ⟨"disturbed", "Disturbed"⟩, ⟨"oversleep", "Oversleep"⟩,
      ⟨"nap", "Nap"⟩, ⟨"nightmare", "Nightmare"⟩,
      ⟨"light-sleep", "Light Sleep"⟩, ⟨"deep-sleep", "Deep Sleep"⟩]
    triggers := ["Caffeine", "Screen Time", "Stress", "Exercise", "Late Meal",
      "Alcohol", "Medication", "Noise", "Temperature", "Anxiety"]
    suggestedHashtags := none
    getIntensityLabel :=
      createIntensityLabelFn ⟨"Terrible", "Poor", "Fair", "Good", "Perfect"⟩
    getIntensityColor := createIntensityColorFn LOW_BAD_COLORS }

/-- Source: `menstrualConfig` in `src/types/tracker-config.ts`. -/
def menstrualConfig : TrackerConfig :=
  { intensityLabel := "Symptom Intensity"
    intensityMinLabel := "1 - Minimal"
    intensityMaxLabel := "10 - Severe"
    locationLabel := "Cycle Phase / Symptoms"
    locationPlaceholder := "What are you experiencing?"
    triggersLabel := "Related Factors"
    notesLabel := "Notes"
    notesPlaceholder := "How are you feeling? Any patterns you notice?"
    addButtonLabel := "Log Cycle Entry"
    formTitle := "Log Cycle Entry"
    emptyStateTitle := "Welcome to Your Cycle Tracker"
    emptyStateDescription := "Start tracking your menstrual cycle by logging your first entry. Understanding your patterns can help you plan ahead and identify health changes."
    emptyStateBullets := [
      "Track cycle phases and symptoms",
      "Predict upcoming periods",
      "Share patterns with healthcare providers"]
    entryTitle := "Cycle Entry Details"
    deleteConfirmMessage := deleteConfirm (some "cycle")
    locations := [
      ⟨"period", "Period"⟩, ⟨"ovulation", "Ovulation"⟩, ⟨"pms", "PMS"⟩,
      ⟨"cramps", "Cramps"⟩, ⟨"bloating", "Bloating"⟩,
      ⟨"headache", "Headache"⟩, ⟨"fatigue", "Fatigue"⟩,
      ⟨"mood-swings", "Mood Swings"⟩, ⟨"spotting", "Spotting"⟩]
    triggers := ["Stress", "Diet", "Exercise", "Sleep", "Hydration",
      "Medication", "Hormones", "Travel", "Weather"]
    suggestedHashtags := none
    getIntensityLabel :=
      createIntensityLabelFn ⟨"Minimal", "Mild", "Moderate", "Severe", "Extreme"⟩
    getIntensityColor := createIntensityColorFn HIGH_BAD_COLORS }

/-- Source: `medicationConfig` in `src/types/tracker-config.ts`. -/
def medicationConfig : TrackerConfig :=
  { intensityLabel := "Effectiveness"
    intensityMinLabel := "1 - No Effect"
    intensityMaxLabel := "10 - Very Effective"
    locationLabel := "Medication Type"
    locationPlaceholder := "What type of medication?"
    triggersLabel := "Side Effects"
    notesLabel := "Notes"
    notesPlaceholder := "Dosage, timing, how you felt after taking it..."
    addButtonLabel := "Log Medication"
    formTitle := "Log Medication Entry"
    emptyStateTitle := "Welcome to Your Medication Tracker"
    emptyStateDescription := "Start tracking your medications by logging your first entry. Keeping a record helps you understand effectiveness and side effects."
    emptyStateBullets := [
      "Track medication effectiveness",
      "Monitor side effects",
      "Keep records for doctor visits"]
    entryTitle := "Medication Entry Details"
    deleteConfirmMessage := deleteConfirm (some "medication")
    locations := [
      ⟨"prescription", "Prescription"⟩, ⟨"otc", "Over-the-Counter"⟩,
      ⟨"supplement", "Supplement"⟩, ⟨"vitamin", "Vitamin"⟩,
      ⟨"painkiller", "Painkiller"⟩, ⟨"antibiotic", "Antibiotic"⟩,
      ⟨"antidepressant", "Antidepressant"⟩, ⟨"other", "Other"⟩]
    triggers := ["Nausea", "Drowsiness", "Headache", "Dizziness",
      "Appetite Change", "Mood Change", "Skin Reaction", "None", "Other"]
    suggestedHashtags := none
    getIntensityLabel :=
      createIntensityLabelFn ⟨"No Effect", "Slight", "Moderate", "Good", "Very Effective"⟩
    getIntensityColor := createIntensityColorFn LOW_BAD_COLORS }

/-- Source: `exerciseConfig` in `src/types/tracker-config.ts`. -/
def exerciseConfig : TrackerConfig :=
  { intensityLabel := "Workout Intensity"
    intensityMinLabel := "1 - Very Light"
    intensityMaxLabel := "10 - Maximum"
    locationLabel := "Activity Type"
    locationPlaceholder := "What did you do?"
    triggersLabel := "How You Felt"
    notesLabel := "Notes"
    notesPlaceholder := "Duration, distance, reps, how you felt during/after..."
    addButtonLabel := "Log Exercise"
    formTitle := "Log Exercise Entry"
    emptyStateTitle := "Welcome to Your Exercise Tracker"
    emptyStateDescription := "Start tracking your workouts by logging your first entry. Monitoring your exercise helps you stay consistent and track progress."
    emptyStateBullets := [
      "Track workout intensity and type",
      "Monitor progress over time",
      "Build healthy habits"]
    entryTitle := "Exercise Entry Details"
    deleteConfirmMessage := deleteConfirm (some "exercise")
    locations := [
      ⟨"cardio", "Cardio"⟩, ⟨"strength", "Strength"⟩,
      ⟨"flexibility", "Flexibility"⟩, ⟨"walking", "Walking"⟩,
      ⟨"running", "Running"⟩, ⟨"cycling", "Cycling"⟩,
      ⟨"swimming", "Swimming"⟩, ⟨"yoga", "Yoga"⟩,
      ⟨"sports", "Sports"⟩, ⟨"hiit", "HIIT"⟩]
    triggers := ["Energized", "Tired", "Sore", "Accomplished", "Struggled",
      "Personal Best", "Recovery Day", "Outdoor", "Gym", "Home"]
    suggestedHashtags := none
    getIntensityLabel :=
      createIntensityLabelFn ⟨"Very Light", "Light", "Moderate", "Hard", "Maximum"⟩
    getIntensityColor := createIntensityColorFn HIGH_BAD_COLORS }

/-- Source: `defaultConfig` in `src/types/tracker-config.ts` (the generic
custom-tracker configuration with the purple gradient palette). -/
def defaultConfig : TrackerConfig :=
  { intensityLabel := "Level"
    intensityMinLabel := "1 - Low"
    intensityMaxLabel := "10 - High"
    locationLabel := "Category"
    locationPlaceholder := "Select a category"
    triggersLabel := "Tags"
    notesLabel := "Notes"
    notesPlaceholder := "Add any notes or details..."
    addButtonLabel := "Log Entry"
    formTitle := "Log Entry"
    emptyStateTitle := "Welcome to Your Tracker"
    emptyStateDescription := "Start tracking by logging your first entry. Understanding your patterns over time can provide valuable insights."
    emptyStateBullets := [
      "Track levels and patterns",
      "Identify trends over time",
      "Keep a personal record"]
    entryTitle := "Entry Details"
    deleteConfirmMessage := deleteConfirm none
    locations := [
      ⟨"general", "General"⟩, ⟨"positive", "Positive"⟩,
      ⟨"negative", "Negative"⟩, ⟨"neutral", "Neutral"⟩]
    triggers := ["Note", "Important", "Follow-up", "Recurring"]
    suggestedHashtags := none
    getIntensityLabel :=
      createIntensityLabelFn ⟨"Very Low", "Low", "Medium", "High", "Very High"⟩
    getIntensityColor :=
      createIntensityColorFn ⟨"#6366f1", "#8b5cf6", "#a855f7", "#c026d3", "#db2777"⟩ }

/-- Source: the `configMap` record in `src/types/tracker-config.ts`.
Preset ids are modelled as strings so that runtime lookups with unknown ids
(the `configMap[presetId] ?? defaultConfig` access) are expressible. -/
def configMap (presetId : String) : Option TrackerConfig :=
  if presetId = "chronic_pain" then some chronicPainConfig
  else if presetId = "mood" then some moodConfig
  else if presetId = "sleep" then some sleepConfig
  else if presetId = "menstrual_cycle" then some menstrualConfig
  else if presetId = "medication" then some medicationConfig
  else if presetId = "exercise" then some exerciseConfig
  else none

/-- Source: `getIntensityLabels` in `src/types/tracker-config.ts`. -/
def getIntensityLabels (scale : IntensityScale) : Tuple5 String :=
  if scale = .high_bad then
    ⟨"Normal", "Mild", "Moderate", "Elevated", "High"⟩
  else if scale = .low_bad then
    ⟨"Very Low", "Low", "Moderate", "Good", "Excellent"⟩
  else
    ⟨"Very Light", "Light", "Moderate", "Intense", "Maximum"⟩

/-- Source: `buildIntensityLabelFn` in `src/types/tracker-config.ts`. -/
def buildIntensityLabelFn (scale : IntensityScale) : Int → String :=
  let labels := getIntensityLabels scale
  fun value =>
    if value ≤ 2 then labels.e0
    else if value ≤ 4 then labels.e1
    else if value ≤ 6 then labels.e2
    else if value ≤ 8 then labels.e3
    else labels.e4

/-- Source: `getIntensityColors` in `src/types/tracker-config.ts`. -/
def getIntensityColors (scale : IntensityScale) : Tuple5 String :=
  if scale = .high_bad then
    ⟨"#22c55e", "#84cc16", "#eab308", "#f97316", "#ef4444"⟩
  else if scale = .low_bad then
    ⟨"#ef4444", "#f97316", "#eab308", "#84cc16", "#22c55e"⟩
  else
    ⟨"#6366f1", "#8b5cf6", "#a855f7", "#c026d3", "#db2777"⟩

/-- Source: `getColorFromPalette` in `src/types/tracker-config.ts`. -/
def getColorFromPalette (colors : Tuple5 String) (value : Int) : String :=
  if value ≤ 2 then colors.e0
  else if value ≤ 4 then colors.e1
  else if value ≤ 6 then colors.e2
  else if value ≤ 8 then colors.e3
  else colors.e4

/-- Source: `buildIntensityColorFn` in `src/types/tracker-config.ts`. -/
def buildIntensityColorFn (scale : IntensityScale) : Int → String :=
  let colors := getIntensityColors scale
  fun value => getColorFromPalette colors value

/-- Source: `buildConfigFromGenerated` in `src/types/tracker-config.ts`.
The TypeScript result object carries no `suggestedHashtags` key, hence
`none` here. -/
def buildConfigFromGenerated (generated : GeneratedTrackerConfig) : TrackerConfig :=
  { intensityLabel := generated.intensityLabel
    intensityMinLabel := generated.intensityMinLabel
    intensityMaxLabel := generated.intensityMaxLabel
    locationLabel := generated.locationLabel
    locationPlaceholder := generated.locationPlaceholder
    triggersLabel := generated.triggersLabel
    notesLabel := generated.notesLabel
    notesPlaceholder := generated.notesPlaceholder
    addButtonLabel := generated.addButtonLabel
    formTitle := generated.formTitle
    emptyStateTitle := generated.emptyStateTitle
    emptyStateDescription := generated.emptyStateDescription
    emptyStateBullets := generated.emptyStateBullets
    entryTitle := generated.entryTitle
    deleteConfirmMessage := generated.deleteConfirmMessage
    locations := generated.locations
    triggers := generated.triggers
    suggestedHashtags := none
    getIntensityLabel := buildIntensityLabelFn generated.intensityScale
    getIntensityColor := buildIntensityColorFn generated.intensityScale }

/-- Source: `getTrackerConfig` in `src/types/tracker-config.ts`.
In the source, `if (generatedConfig)` tests object truthiness (any non-null
config passes), and `if (!presetId)` is also true for the empty string, which
is falsy in JavaScript; the empty-string case is modelled explicitly. -/
def getTrackerConfig (presetId : Option String)
    (generatedConfig : Option GeneratedTrackerConfig) : TrackerConfig :=
  match generatedConfig with
  | some g => buildConfigFromGenerated g
  | none =>
    match presetId with
    | none => defaultConfig
    | some pid =>
      if pid = "" then defaultConfig
      else (configMap pid).getD defaultConfig

/-- Claim C4: with a non-null preset id and a non-null generated config,
`getTrackerConfig` returns exactly the config built from the generated config
(scalar fields copied, intensity functions selected by its `intensityScale`
tag), never the preset table entry. -/
theorem getTrackerConfig_generated_wins (presetId : String)
    (g : GeneratedTrackerConfig) :
    getTrackerConfig (some presetId) (some g) = buildConfigFromGenerated g ∧
    (getTrackerConfig (some presetId) (some g)).intensityLabel = g.intensityLabel ∧
    (getTrackerConfig (some presetId) (some g)).formTitle = g.formTitle ∧
    (getTrackerConfig (some presetId) (some g)).getIntensityLabel =
      buildIntensityLabelFn g.intensityScale ∧
    (getTrackerConfig (some presetId) (some g)).getIntensityColor =
      buildIntensityColorFn g.intensityScale :=
  ⟨rfl, rfl, rfl, rfl, rfl⟩

/-- Claim C5: `getTrackerConfig` is total and always returns one of the
complete configurations (generated-built, preset, or generic default) — never
a partially populated object — and on `(null, null)` it returns the generic
default configuration whose palette is the neutral purple gradient. -/
theorem getTrackerConfig_total_and_default :
    (∀ (presetId : Option String) (gc : Option GeneratedTrackerConfig),
      getTrackerConfig presetId gc = defaultConfig ∨
      (∃ g, gc = some g ∧ getTrackerConfig presetId gc = buildConfigFromGenerated g) ∨
      (∃ p c, presetId = some p ∧ configMap p = some c ∧
        getTrackerConfig presetId gc = c)) ∧
    getTrackerConfig none none = defaultConfig ∧
    defaultConfig.getIntensityColor 1 = "#6366f1" ∧
    defaultConfig.getIntensityColor 3 = "#8b5cf6" ∧
    defaultConfig.getIntensityColor 5 = "#a855f7" ∧
    defaultConfig.getIntensityColor 7 = "#c026d3" ∧
    defaultConfig.getIntensityColor 9 = "#db2777" := by
  refine ⟨?_, rfl, rfl, rfl, rfl, rfl, rfl⟩
  intro presetId gc
  cases gc with
  | some g => exact Or.inr (Or.inl ⟨g, rfl, rfl⟩)
  | none =>
    cases presetId with
    | none => exact Or.inl rfl
    | some pid =>
      by_cases hp : pid = ""
      · exact Or.inl (by simp [getTrackerConfig, hp])
      · cases hc : configMap pid with
        | none => exact Or.inl (by simp [getTrackerConfig, hp, hc])
        | some c =>
          exact Or.inr (Or.inr ⟨pid, c, rfl, hc, by simp [getTrackerConfig, hp, hc]⟩)

/-- A generated configuration whose required `intensityLabel` field is the
empty string while every other field is populated; used to exercise the
missing validity check in `getTrackerConfig`. -/
def emptyLabelGenerated : GeneratedTrackerConfig :=
  { intensityLabel := ""
    intensityMinLabel := "1 - Low"
    intensityMaxLabel := "10 - High"
    locationLabel := "Category"
    locationPlaceholder := "Select a category"
    triggersLabel := "Tags"
    notesLabel := "Notes"
    notesPlaceholder := "Add any notes or details..."
    addButtonLabel := "Log Entry"
    formTitle := "Log Entry"
    emptyStateTitle := "Welcome"
    emptyStateDescription := "Start tracking."
    emptyStateBullets := ["Track levels and patterns"]
    entryTitle := "Entry Details"
    deleteConfirmMessage := "Are you sure?"
    locations := [⟨"general", "General"⟩]
    triggers := ["Note"]
    intensityScale := .neutral
    suggestedHashtags := none }

/-- Counterexample to claim C2: `getTrackerConfig` performs no emptiness
validation, so a generated config with an empty required string field is used
as-is — the resolver returns a config containing an empty label instead of
falling back to the known preset (`chronic_pain`) or the generic default. -/
theorem getTrackerConfig_uses_empty_generated_config :
    (getTrackerConfig (some "chronic_pain") (some emptyLabelGenerated)).intensityLabel
      = "" ∧
    getTrackerConfig (some "chronic_pain") (some emptyLabelGenerated)
      ≠ chronicPainConfig ∧
    getTrackerConfig (some "chronic_pain") (some emptyLabelGenerated)
      ≠ defaultConfig := by
  refine ⟨rfl, ?_, ?_⟩
  · intro h
    exact absurd (congrArg TrackerConfig.intensityLabel h) (by decide)
  · intro h
    exact absurd (congrArg TrackerConfig.intensityLabel h) (by decide)

/-- Claim C2 as amended: `getTrackerConfig` performs no validity check on the
generated config; any present generated config is used verbatim (its label
fields copied even when empty), and the preset-or-generic fallback applies
only when the generated config is absent. -/
theorem getTrackerConfig_generated_taken_verbatim (presetId : Option String)
    (g : GeneratedTrackerConfig) :
    getTrackerConfig presetId (some g) = buildConfigFromGenerated g ∧
    (getTrackerConfig presetId (some g)).intensityLabel = g.intensityLabel ∧
    (getTrackerConfig presetId (some g)).locationLabel = g.locationLabel := by
  cases presetId <;> exact ⟨rfl, rfl, rfl⟩

/-- A validated user snapshot `{ id, email? }` (`AuthUser` in
`src/ports/AuthPort.ts`). -/
structure AuthUser where
  id : String
  email : Option String
deriving DecidableEq

/-- The possible outcomes of the `supabaseClient.auth.getUser()` call inside
`_validateSessionWithServer` (`src/adapters/supabase/supabaseAuth.ts`):
it resolves with a user, resolves with an error, resolves without a user,
or rejects (caught by the surrounding try/catch). -/
inductive GetUserOutcome where
  | ok (user : AuthUser)
  | errorResult
  | noUser
  | threw
deriving DecidableEq

/-- The observable state of the Supabase auth adapter: the module-level
`currentUser` snapshot and the number of `supabaseClient.auth.signOut()`
invocations. The provider sign-out is modelled as a counted, non-throwing
effect (it resolves to an `{ error }` record). -/
structure AuthAdapterState where
  currentUser : Option AuthUser
  signOutCalls : Nat
deriving DecidableEq

/-- Source: `_validateSessionWithServer` in
`src/adapters/supabase/supabaseAuth.ts`. On an error, an absent user, or a
rejection, it clears `currentUser`, calls the provider sign-out, and returns
null; on success it stores and returns the validated user. The embedding is a
total function, mirroring that the source catches every rejection of the
session check. -/
def validateSessionWithServer (outcome : GetUserOutcome) (s : AuthAdapterState) :
    Option AuthUser × AuthAdapterState :=
  match outcome with
  | .ok user => (some user, { s with currentUser := some user })
  | .errorResult => (none, { currentUser := none, signOutCalls := s.signOutCalls + 1 })
  | .noUser => (none, { currentUser := none, signOutCalls := s.signOutCalls + 1 })
  | .threw => (none, { currentUser := none, signOutCalls := s.signOutCalls + 1 })

/-- Claim C6: for every outcome of the authoritative session check — provider
error, thrown exception, or absent user — `_validateSessionWithServer`
returns null, has invoked the provider sign-out exactly once, and has cleared
the in-memory `currentUser` snapshot; on success it returns the validated
user without signing out. -/
theorem validateSessionWithServer_fail_closed (s : AuthAdapterState) (u : AuthUser) :
    validateSessionWithServer .errorResult s =
      (none, { currentUser := none, signOutCalls := s.signOutCalls + 1 }) ∧
    validateSessionWithServer .noUser s =
      (none, { currentUser := none, signOutCalls := s.signOutCalls + 1 }) ∧
    validateSessionWithServer .threw s =
      (none, { currentUser := none, signOutCalls := s.signOutCalls + 1 }) ∧
    validateSessionWithServer (.ok u) s =
      (some u, { currentUser := some u, signOutCalls := s.signOutCalls }) :=
  ⟨rfl, rfl, rfl, rfl⟩

/-- The possible outcomes of
`Promise.race([auth.getSession(), 5-second timer])` inside
`validateAndInitAuth` (`src/App.tsx`): a session is returned, the call
resolves null, the timer wins the race, or `auth.getSession()` rejects. In
the rejection case the cleanup sign-out is attempted and its own failure is
swallowed, recorded here by the Boolean. -/
inductive SessionCheckOutcome where
  | session (user : AuthUser)
  | nullSession
  | timedOut
  | threw (signOutAlsoThrows : Bool)
deriving DecidableEq

/-- The `{ user, authLoading }` projection written by `validateAndInitAuth`,
together with the number of `auth.signOut()` calls it performed. -/
structure InitAuthResult where
  user : Option AuthUser
  authLoading : Bool
  signOutCalls : Nat
deriving DecidableEq

/-- Source: `validateAndInitAuth` in `src/App.tsx`. The timeout and the
null-session results set the user to null and return; only the catch branch
additionally invokes `auth.signOut()` (once, with its own failure caught);
the finally branch always clears `authLoading`. -/
def validateAndInitAuth : SessionCheckOutcome → InitAuthResult
  | .session u => { user := some u, authLoading := false, signOutCalls := 0 }
  | .nullSession => { user := none, authLoading := false, signOutCalls := 0 }
  | .timedOut => { user := none, authLoading := false, signOutCalls := 0 }
  | .threw _ => { user := none, authLoading := false, signOutCalls := 1 }

/-- Counterexample to claim C1: when the authoritative check times out, the
startup validation ends Unauthenticated (user null) but the provider
sign-out is invoked zero times, not exactly once. -/
theorem validateAndInitAuth_timeout_skips_signout :
    (validateAndInitAuth .timedOut).user = none ∧
    (validateAndInitAuth .timedOut).signOutCalls = 0 ∧
    (validateAndInitAuth .timedOut).signOutCalls ≠ 1 := by
  decide

/-- Claim C1 as amended: every failure outcome of the startup session
validation (null session, timeout, or thrown error) ends with the user set
to null and auth loading cleared, but the provider sign-out is invoked
exactly once only when the check throws; on timeout or a null session it is
not invoked at all. -/
theorem validateAndInitAuth_fail_closed (u : AuthUser) (b : Bool) :
    validateAndInitAuth (.session u) =
      { user := some u, authLoading := false, signOutCalls := 0 } ∧
    validateAndInitAuth .nullSession =
      { user := none, authLoading := false, signOutCalls := 0 } ∧
    validateAndInitAuth .timedOut =
      { user := none, authLoading := false, signOutCalls := 0 } ∧
    validateAndInitAuth (.threw b) =
      { user := none, authLoading := false, signOutCalls := 1 } :=
  ⟨rfl, rfl, rfl, rfl⟩

/-- Lowercasing of a string, modelling `String.prototype.toLowerCase()` on
the ASCII error messages involved. -/
def lowerString (s : String) : String :=
  String.mk (s.data.map Char.toLower)

/-- Whether `sub` occurs as a contiguous run inside `l`. -/
def listContainsRun (sub : List Char) : List Char → Bool
  | [] => List.isPrefixOf sub []
  | c :: rest => List.isPrefixOf sub (c :: rest) || listContainsRun sub rest

/-- Substring containment, modelling `String.prototype.includes`. -/
def includesSubstr (s pat : String) : Bool :=
  listContainsRun pat.data s.data

/-- The observable auth state of the App component: the `user` projection and
the number of `auth.signOut()` calls. -/
structure AppAuthState where
  user : Option AuthUser
  signOutCalls : Nat
deriving DecidableEq

/-- The user-visible effect of an entry operation: a forced sign-out, a
generic failure toast, or success. -/
inductive EntryOpEffect where
  | forcedSignOut
  | genericFailureToast
  | success
deriving DecidableEq

/-- Source: the `isAuthError` helper in `src/App.tsx`. A null error (or an
error without a message) is not auth-shaped; otherwise the lowercased message
is tested against the six authorization-shaped substrings. -/
def isAuthError (error : Option String) : Bool :=
  match error with
  | none => false
  | some message =>
    let msg := lowerString message
    includesSubstr msg "jwt" ||
    includesSubstr msg "token" ||
    includesSubstr msg "unauthorized" ||
    includesSubstr msg "auth" ||
    includesSubstr msg "permission" ||
    includesSubstr msg "row-level security"

/-- Source: the inlined auth-error test in `loadEntries` in `src/App.tsx`,
which lowercases `error.message` with a fallback to the empty string before
testing the same six substrings. -/
def loadEntriesAuthCheck (message : Option String) : Bool :=
  let errorMsg := (message.map lowerString).getD ""
  includesSubstr errorMsg "jwt" ||
  includesSubstr errorMsg "token" ||
  includesSubstr errorMsg "unauthorized" ||
  includesSubstr errorMsg "auth" ||
  includesSubstr errorMsg "permission" ||
  includesSubstr errorMsg "row-level security"

/-- Source: the shared error branch of `loadEntries`, `handleAddEntry`,
`handleUpdateEntry` and `handleDeleteEntry` in `src/App.tsx`: an auth-shaped
store error triggers `handleAuthError` (sign-out plus user cleared), any
other error shows a generic failure toast and leaves the user unchanged. -/
def handleEntryOpError (error : Option String) (s : AppAuthState) :
    AppAuthState × EntryOpEffect :=
  match error with
  | none => (s, .success)
  | some msg =>
    if isAuthError (some msg) then
      ({ user := none, signOutCalls := s.signOutCalls + 1 }, .forcedSignOut)
    else
      (s, .genericFailureToast)

/-- Claim C7: a persistence-store error whose lowercased message contains one
of the six authorization-shaped substrings forces a sign-out (user set to
null, `auth.signOut` invoked); every other error message leaves the user
unchanged and only shows a generic failure toast; and the inlined check in
`loadEntries` classifies exactly as the shared `isAuthError` helper. -/
theorem entry_error_auth_classification (m : String) (s : AppAuthState) :
    handleEntryOpError (some m) s =
      (if isAuthError (some m) then
        ({ user := none, signOutCalls := s.signOutCalls + 1 },
          EntryOpEffect.forcedSignOut)
      else (s, EntryOpEffect.genericFailureToast)) ∧
    isAuthError (some m) =
      (includesSubstr (lowerString m) "jwt" ||
       includesSubstr (lowerString m) "token" ||
       includesSubstr (lowerString m) "unauthorized" ||
       includesSubstr (lowerString m) "auth" ||
       includesSubstr (lowerString m) "permission" ||
       includesSubstr (lowerString m) "row-level security") ∧
    loadEntriesAuthCheck (some m) = isAuthError (some m) ∧
    loadEntriesAuthCheck none = isAuthError none ∧
    handleEntryOpError none s = (s, EntryOpEffect.success) := by
  refine ⟨rfl, rfl, rfl, by decide, rfl⟩

/-- A tracker row, from the `trackers` table of
`supabase/migrations/20251225_001_create_trackers.sql` and the `Tracker`
entity used by `TrackerSelector.tsx`. Database UUIDs are modelled as natural
numbers; freshness of generated ids is modelled with a counter in `Store`. -/
structure Tracker where
  id : Nat
  user_id : String
  name : String
  type : String
  preset_id : Option String
  icon : String
  color : String
  is_default : Bool
deriving DecidableEq

/-- A `pain_entries` row restricted to the columns the migration touches. -/
structure PainEntryRow where
  user_id : String
  tracker_id : Option Nat
deriving DecidableEq

/-- The persistence-store state seen by the migration functions. -/
structure Store where
  trackers : List Tracker
  pain_entries : List PainEntryRow
  nextId : Nat
deriving DecidableEq

/-- Source: the `create_default_tracker` SQL function in
`supabase/migrations/20251225_001_create_trackers.sql`: inserts a
default-flagged preset Chronic Pain tracker for the user and returns its
fresh id. -/
def create_default_tracker (p_user_id : String) (s : Store) : Nat × Store :=
  let t : Tracker :=
    { id := s.nextId, user_id := p_user_id, name := "Chronic Pain",
      type := "preset", preset_id := some "chronic_pain",
      icon := "activity", color := "#ef4444", is_default := true }
  (s.nextId, { s with trackers := s.trackers ++ [t], nextId := s.nextId + 1 })

/-- Source: the `UPDATE pain_entries SET tracker_id = ...` statement of
`migrate_user_to_trackers`: every entry of the user without a tracker is
assigned the given tracker id. -/
def assignOrphanEntries (p_user_id : String) (v_tracker_id : Nat)
    (entries : List PainEntryRow) : List PainEntryRow :=
  entries.map fun e =>
    if e.user_id == p_user_id && e.tracker_id.isNone then
      { e with tracker_id := some v_tracker_id }
    else e

/-- Source: the `migrate_user_to_trackers` SQL function in
`supabase/migrations/20251225_001_create_trackers.sql` — the single source of
truth behind the ensure-default-tracker operation: select the user's
default-flagged tracker (`LIMIT 1`); if none exists, create one; then assign
orphan entries to it and return its id. -/
def migrate_user_to_trackers (p_user_id : String) (s : Store) : Nat × Store :=
  match s.trackers.find? (fun t => t.user_id == p_user_id && t.is_default) with
  | some t =>
    (t.id, { s with pain_entries := assignOrphanEntries p_user_id t.id s.pain_entries })
  | none =>
    let created := create_default_tracker p_user_id s
    (created.1,
      { created.2 with
        pain_entries := assignOrphanEntries p_user_id created.1 created.2.pain_entries })

/-- Claim C8: the ensure-default-tracker operation is idempotent under
sequential calls: the second call returns the same tracker id and changes no
trackers; a single call creates at most one tracker; an existing
default-flagged tracker is returned unchanged; and when none exists, exactly
one new default-flagged tracker is created for the user. -/
theorem migrate_user_to_trackers_idempotent (u : String) (s : Store) :
    (migrate_user_to_trackers u (migrate_user_to_trackers u s).2).1 =
      (migrate_user_to_trackers u s).1 ∧
    (migrate_user_to_trackers u (migrate_user_to_trackers u s).2).2.trackers =
      (migrate_user_to_trackers u s).2.trackers ∧
    (migrate_user_to_trackers u s).2.trackers.length ≤ s.trackers.length + 1 ∧
    (∀ t, s.trackers.find? (fun t => t.user_id == u && t.is_default) = some t →
      (migrate_user_to_trackers u s).1 = t.id ∧
      (migrate_user_to_trackers u s).2.trackers = s.trackers) ∧
    (s.trackers.find? (fun t => t.user_id == u && t.is_default) = none →
      ∃ tnew, (migrate_user_to_trackers u s).2.trackers = s.trackers ++ [tnew] ∧
        tnew.is_default = true ∧ tnew.user_id = u ∧
        (migrate_user_to_trackers u s).1 = tnew.id) := by
  cases h : s.trackers.find? (fun t => t.user_id == u && t.is_default) with
  | some t =>
    have h1 : migrate_user_to_trackers u s =
        (t.id, { s with pain_entries := assignOrphanEntries u t.id s.pain_entries }) := by
      simp [migrate_user_to_trackers, h]
    refine ⟨?_, ?_, ?_, ?_, ?_⟩
    · rw [h1]; simp [migrate_user_to_trackers, h]
    · rw [h1]; simp [migrate_user_to_trackers, h]
    · rw [h1]; exact Nat.le_succ _
    · intro t' ht'
      injection ht' with hh
      subst hh
      rw [h1]
      exact ⟨rfl, rfl⟩
    · intro hnone
      exact Option.noConfusion hnone
  | none =>
    have h1 : migrate_user_to_trackers u s =
        (s.nextId,
          { trackers := s.trackers ++
              [(⟨s.nextId, u, "Chronic Pain", "preset", some "chronic_pain",
                 "activity", "#ef4444", true⟩ : Tracker)],
            pain_entries := assignOrphanEntries u s.nextId s.pain_entries,
            nextId := s.nextId + 1 }) := by
      simp [migrate_user_to_trackers, h, create_default_tracker]
    refine ⟨?_, ?_, ?_, ?_, ?_⟩
    · rw [h1]; simp [migrate_user_to_trackers, h]
    · rw [h1]; simp [migrate_user_to_trackers, h]
    · rw [h1]; simp
    · intro t' ht'
      exact Option.noConfusion ht'
    · intro _
      refine ⟨(⟨s.nextId, u, "Chronic Pain", "preset", some "chronic_pain",
        "activity", "#ef4444", true⟩ : Tracker), ?_, rfl, rfl, ?_⟩
      · rw [h1]
      · rw [h1]

/-- Witness for claim C8's theorem: with an existing default tracker the
operation returns its id and leaves the tracker list unchanged, and on an
empty store it creates exactly one default-flagged tracker for the user. -/
theorem migrate_user_to_trackers_idempotent_witness :
    (migrate_user_to_trackers "u1"
      ⟨[⟨3, "u1", "Chronic Pain", "preset", some "chronic_pain", "activity",
          "#ef4444", true⟩], [], 5⟩).1 = 3 ∧
    (migrate_user_to_trackers "u1"
      ⟨[⟨3, "u1", "Chronic Pain", "preset", some "chronic_pain", "activity",
          "#ef4444", true⟩], [], 5⟩).2.trackers =
      [⟨3, "u1", "Chronic Pain", "preset", some "chronic_pain", "activity",
          "#ef4444", true⟩] ∧
    ∃ tnew,
      (migrate_user_to_trackers "u2" ⟨[], [], 0⟩).2.trackers = [tnew] ∧
      tnew.is_default = true ∧ tnew.user_id = "u2" ∧
      (migrate_user_to_trackers "u2" ⟨[], [], 0⟩).1 = tnew.id := by
  have hex := (migrate_user_to_trackers_idempotent "u1"
    ⟨[⟨3, "u1", "Chronic Pain", "preset", some "chronic_pain", "activity",
        "#ef4444", true⟩], [], 5⟩).2.2.2.1
    ⟨3, "u1", "Chronic Pain", "preset", some "chronic_pain", "activity",
        "#ef4444", true⟩ (by decide)
  have hnew := (migrate_user_to_trackers_idempotent "u2" ⟨[], [], 0⟩).2.2.2.2 rfl
  obtain ⟨tnew, htr, hdef, huser, hid⟩ := hnew
  exact ⟨hex.1, hex.2, tnew, by simpa using htr, hdef, huser, hid⟩

/-- Source: the success branch of `handleDeleteTracker` in
`src/components/TrackerSelector.tsx`: the tracker list drops the deleted id;
if the deleted tracker was the active selection and at least one tracker
remains, the first default-flagged remaining tracker (else the first
remaining tracker) becomes active via `onTrackerChange`. -/
def handleDeleteTracker (trackers : List Tracker) (currentTracker : Option Tracker)
    (trackerToDelete : Tracker) : List Tracker × Option Tracker :=
  let newTrackers := trackers.filter fun t => !(t.id == trackerToDelete.id)
  let newActive :=
    if currentTracker.map Tracker.id = some trackerToDelete.id then
      match trackers.filter (fun t => !(t.id == trackerToDelete.id)) with
      | [] => currentTracker
      | r0 :: rest => some (((r0 :: rest).find? fun t => t.is_default).getD r0)
    else currentTracker
  (newTrackers, newActive)

/-- Claim C9: deleting the currently active tracker when at least one other
tracker remains selects a replacement from the remaining trackers — a
default-flagged one if any remains, else the first remaining — and the
active selection never refers to the deleted id afterwards. -/
theorem handleDeleteTracker_reassigns_active
    (trackers : List Tracker) (toDelete r0 : Tracker) (rest : List Tracker)
    (hrem : trackers.filter (fun t => !(t.id == toDelete.id)) = r0 :: rest) :
    (handleDeleteTracker trackers (some toDelete) toDelete).1 = r0 :: rest ∧
    ∃ a, (handleDeleteTracker trackers (some toDelete) toDelete).2 = some a ∧
      a ∈ r0 :: rest ∧
      a.id ≠ toDelete.id ∧
      ((∃ t ∈ r0 :: rest, t.is_default = true) → a.is_default = true) ∧
      (∀ t, (r0 :: rest).find? (fun t => t.is_default) = some t → a = t) ∧
      ((r0 :: rest).find? (fun t => t.is_default) = none → a = r0) := by
  have hres : handleDeleteTracker trackers (some toDelete) toDelete =
      (r0 :: rest, some (((r0 :: rest).find? fun t => t.is_default).getD r0)) := by
    simp [handleDeleteTracker, hrem]
  set a := ((r0 :: rest).find? fun t => t.is_default).getD r0 with ha
  have hmem : a ∈ r0 :: rest := by
    cases hf : (r0 :: rest).find? fun t => t.is_default with
    | some t =>
      rw [ha, hf]
      exact List.mem_of_find?_eq_some hf
    | none =>
      rw [ha, hf]
      exact List.mem_cons_self r0 rest
  refine ⟨by rw [hres], a, by rw [hres], hmem, ?_, ?_, ?_, ?_⟩
  · have : a ∈ trackers.filter fun t => !(t.id == toDelete.id) := by
      rw [hrem]; exact hmem
    have := (List.mem_filter.mp this).2
    simpa using this
  · rintro ⟨t, htmem, htdef⟩
    cases hf : (r0 :: rest).find? fun t => t.is_default with
    | some t' =>
      have := List.find?_some hf
      rw [ha, hf]
      simpa using this
    | none =>
      have := List.find?_eq_none.mp hf t htmem
      rw [htdef] at this
      simp at this
  · intro t' hf
    rw [ha, hf]
    rfl
  · intro hf
    rw [ha, hf]
    rfl

/-- Witness for claim C9's theorem: deleting the active tracker with id 1
from a two-tracker list reassigns the active selection to the remaining
default-flagged tracker with id 2. -/
theorem handleDeleteTracker_reassigns_active_witness :
    (handleDeleteTracker
      [⟨1, "u1", "A", "custom", none, "activity", "#6366f1", false⟩,
       ⟨2, "u1", "B", "preset", some "mood", "activity", "#ef4444", true⟩]
      (some ⟨1, "u1", "A", "custom", none, "activity", "#6366f1", false⟩)
      ⟨1, "u1", "A", "custom", none, "activity", "#6366f1", false⟩).1 =
      [⟨2, "u1", "B", "preset", some "mood", "activity", "#ef4444", true⟩] ∧
    (handleDeleteTracker
      [⟨1, "u1", "A", "custom", none, "activity", "#6366f1", false⟩,
       ⟨2, "u1", "B", "preset", some "mood", "activity", "#ef4444", true⟩]
      (some ⟨1, "u1", "A", "custom", none, "activity", "#6366f1", false⟩)
      ⟨1, "u1", "A", "custom", none, "activity", "#6366f1", false⟩).2 =
      some ⟨2, "u1", "B", "preset", some "mood", "activity", "#ef4444", true⟩ := by
  have h := handleDeleteTracker_reassigns_active
    [⟨1, "u1", "A", "custom", none, "activity", "#6366f1", false⟩,
     ⟨2, "u1", "B", "preset", some "mood", "activity", "#ef4444", true⟩]
    ⟨1, "u1", "A", "custom", none, "activity", "#6366f1", false⟩
    ⟨2, "u1", "B", "preset", some "mood", "activity", "#ef4444", true⟩ []
    (by decide)
  obtain ⟨h1, a, h2, _, _, _, hsome, _⟩ := h
  have : a = ⟨2, "u1", "B", "preset", some "mood", "activity", "#ef4444", true⟩ :=
    hsome _ (by decide)
  exact ⟨h1, by rw [h2, this]⟩

end Baseline
